import Mathlib

/-!
Shallow embedding of src/code.py (Auxspace METER telemetry, CircuitPython).

Modelling conventions:
* Python int levels and sensor-type tags are Nat constants, as in the source
  (the source has no real enums; it uses const int class attributes).
* Sensor field values are carried as already-rendered decimal strings: the
  source renders floats with an f-string, and every claim about encoding is
  about the assembled line, with numeric literals whose Python rendering is
  the literal itself (1013.25 and 21.5 are exactly representable doubles
  whose str() is the shortest decimal shown).
* Side effects are modelled as an explicit event trace: log calls, attempted
  appends to log files, attempted appends of data lines, attempted removals.
* Python exceptions are modelled with Except String; a raised exception is
  an Except.error carrying the message, and a try/except block is a match.
* The hardware and driver environment of one tick (pin levels, driver
  faults, filesystem) is an explicit Env record, so fault injection is a
  choice of Env.
-/

namespace METER

/-! ## File paths (source lines 106-113) -/

def _SD_ROOT : String := "/sd"

def _DATA_FILE : String := "data.txt"

def _LOG_FILE : String := "run.log"

def _ERR_FILE : String := "error.log"

def DATAPATH : String := _SD_ROOT ++ "/" ++ _DATA_FILE

def LOGPATH : String := _SD_ROOT ++ "/" ++ _LOG_FILE

def ERRPATH : String := _SD_ROOT ++ "/" ++ _ERR_FILE

/-! ## LogLevel (source lines 117-137) -/

def LogLevel.DEBUG : Nat := 0

def LogLevel.INFO : Nat := 1

def LogLevel.WARN : Nat := 2

def LogLevel.ERROR : Nat := 3

/-- LogLevel.get_name, source lines 124-137 (the if-chain order is the
source order; the fall-through case yields "UNKNOWN"). -/
def LogLevel.get_name (level : Nat) : String :=
  if level = LogLevel.DEBUG then "DEBUG"
  else if level = LogLevel.ERROR then "ERROR"
  else if level = LogLevel.WARN then "WARN"
  else if level = LogLevel.INFO then "INFO"
  else "UNKNOWN"

/-! ## SensorType (source lines 141-155) -/

def SensorType.BNO08X : Nat := 0

def SensorType.DPS310 : Nat := 1

/-- SensorType.get_name, source lines 146-155. -/
def SensorType.get_name (sensor_type : Nat) : String :=
  if sensor_type = SensorType.BNO08X then "bno08x"
  else if sensor_type = SensorType.DPS310 then "dps310"
  else "unknown"

/-! ## SensorData and the line-protocol encoder (source lines 211-246) -/

/-- SensorData, source lines 211-225. The data object is represented by the
field mapping its get_data method produces, as an association list in the
insertion order of the Python dict (CircuitPython dicts preserve insertion
order); values are the rendered decimal strings. -/
structure SensorData where
  sensor_type : Nat
  data : List (String × String)
  timestamp : Nat
  deriving DecidableEq, Repr

/-- SensorData.to_influx_line, source lines 227-246. The annotation in the
source is str or None; the body always returns the f-string, so the result
is always some. -/
def SensorData.to_influx_line (self : SensorData) : Option String :=
  let measurement := SensorType.get_name self.sensor_type
  let _field_substrings : List String :=
    self.data.map fun kv => kv.1 ++ "=" ++ kv.2
  let fields : String := String.intercalate "," _field_substrings
  some (measurement ++ " " ++ fields ++ " " ++ toString self.timestamp)

/-- The string to_influx_line always produces, written out directly. -/
def influx_render (sensor_type : Nat) (data : List (String × String))
    (timestamp : Nat) : String :=
  SensorType.get_name sensor_type ++ " "
    ++ String.intercalate "," (data.map fun kv => kv.1 ++ "=" ++ kv.2)
    ++ " " ++ toString timestamp

/-! ## The logger (source lines 262-301)

log renders the message and routes the file write.  The rendered string and
the append target are the observable outcome: the print and UART mirrors
take the same rendered string, and the file write is open-append-close with
every open or write failure caught inside log itself (lines 293-301), so
log never raises. -/

/-- log, source lines 262-301: returns the rendered line together with the
path of the file the call appends to (none when level is Debug, which
returns before the file write; the path is reassigned to ERRPATH for
Error, source lines 290-291). -/
def log (level : Nat) (message : List String) (timestamp_ms : Nat) :
    String × Option String :=
  let str_message : String :=
    if message.isEmpty then ""
    else
      "[" ++ LogLevel.get_name level ++ "] - [" ++ toString timestamp_ms
        ++ "]: " ++ String.join message
  let logfile_path : String :=
    if level = LogLevel.ERROR then ERRPATH else LOGPATH
  if level = LogLevel.DEBUG then (str_message, none)
  else (str_message, some logfile_path)

/-! ## Event traces and the per-tick environment

Each tick of the runtime loop is modelled as a function from an Env (the
pin levels, driver behaviour and filesystem of that tick) to an Except
result together with the trace of observable events. -/

/-- Observable side effects of one tick. A logFileWrite is the attempted
open-append-close performed inside log (its own failures are caught inside
log, so only the attempt is observable); an fwrite is the data-file append
performed by data2datafile; a removeAttempt is an os.remove call. -/
inductive Event where
  | logged (level : Nat) (msg : String)
  | logFileWrite (path : String)
  | fwrite (path : String) (line : String)
  | removeAttempt (path : String)
  deriving DecidableEq, Repr

/-- Trace of one log call (source lines 262-301): the call itself plus, for
non-Debug levels, the attempted append to the routed log file. The message
is kept unrendered here; the rendering is the log function above. The
filesystem effect of the same call is log_touch below: where the model
threads a filesystem through a code path, every log call is paired with a
log_touch on the state. -/
def logE (level : Nat) (msg : String) : List Event :=
  Event.logged level msg ::
    (if level = LogLevel.DEBUG then []
     else [Event.logFileWrite
            (if level = LogLevel.ERROR then ERRPATH else LOGPATH)])

/-- Filesystem effect of one log call: the open(path, "a") on source line
294 creates the routed log file when it succeeds (create-on-append), so a
successful non-Debug log call makes its target file exist. ok says whether
the open succeeds during this tick; a failing open is caught inside log
and leaves the filesystem unchanged. -/
def log_touch (files : String → Bool) (ok : Bool) (level : Nat) :
    String → Bool :=
  if level = LogLevel.DEBUG then files
  else if ok then
    fun q =>
      if q = (if level = LogLevel.ERROR then ERRPATH else LOGPATH) then true
      else files q
  else files

/-- Environment of one tick: pin levels, filesystem content, and the
behaviour of the fallible external calls during that tick. A some value in
poll_fault, dps_fault or bno_fault means that call raises with that
message; data_open_ok says whether open(DATAPATH, "a") succeeds, and
log_open_ok whether the append-mode opens of the two log files inside log
succeed (false when the card is gone). -/
structure Env where
  card_present : Bool
  del_pressed : Bool
  files : String → Bool
  data_open_ok : Bool
  log_open_ok : Bool
  poll_fault : Option String
  dps_fault : Option String
  dps_pressure : String
  dps_temp : String
  bno_fault : Option String
  bno_accel : Option (String × String × String)

/-! ## Sensor get_data (source lines 172-207) -/

/-- Bno08xData.get_data, source lines 178-192: the dict is initialised with
zeros; if the acceleration property raises, the exception propagates (there
is no try/except in the body); if it returns a falsy value, the zeros are
kept and an Error is logged; otherwise the three axes are filled in. -/
def Bno08xData.get_data (env : Env) :
    Except String (List (String × String)) × List Event :=
  match env.bno_fault with
  | some e => (.error e, [])
  | none =>
    match env.bno_accel with
    | none =>
      (.ok [("accel_x", "0"), ("accel_y", "0"), ("accel_z", "0")],
       logE LogLevel.ERROR "Could not get acceleration data from bno08x.")
    | some (x, y, z) =>
      (.ok [("accel_x", x), ("accel_y", y), ("accel_z", z)], [])

/-- DPS310Data.get_data, source lines 202-207: two direct property reads
with no exception handling and no fallback; a driver fault propagates. -/
def DPS310Data.get_data (env : Env) :
    Except String (List (String × String)) :=
  match env.dps_fault with
  | some e => .error e
  | none => .ok [("pressure", env.dps_pressure), ("temp", env.dps_temp)]

/-! ## data2datafile and the sensor handlers (source lines 430-443, 509-541) -/

/-- data2datafile, source lines 430-443, applied to the result of the
get_data call that to_influx_line performs (gd carries that result and the
events get_data emitted). The walrus-if keeps only a truthy line (None and
the empty string are falsy); the open is attempted unconditionally for a
truthy line and its failure raises out of the function (there is no
try/except here); on success a Debug log and the append of line + CRLF
happen inside the with block. -/
def data2datafile (env : Env) (sensor_type : Nat)
    (gd : Except String (List (String × String)) × List Event)
    (timestamp : Nat) : Except String Unit × List Event :=
  match gd.1 with
  | .error e => (.error e, gd.2)
  | .ok fd =>
    match (SensorData.mk sensor_type fd timestamp).to_influx_line with
    | none => (.ok (), gd.2)
    | some influx_line =>
      if influx_line = "" then (.ok (), gd.2)
      else if env.data_open_ok then
        (.ok (),
         gd.2
           ++ logE LogLevel.DEBUG
                ("Appending " ++ influx_line ++ " to " ++ DATAPATH)
           ++ [Event.fwrite DATAPATH (influx_line ++ "\r\n")])
      else (.error "OSError", gd.2)

/-- _handle_sensor, source lines 509-519: builds the SensorData with the
current time and calls data2datafile; nothing is caught here. -/
def _handle_sensor (env : Env) (sensor_type : Nat)
    (gd : Except String (List (String × String)) × List Event)
    (current_time : Nat) : Except String Unit × List Event :=
  data2datafile env sensor_type gd current_time

/-- handle_dps310, source lines 533-541. -/
def handle_dps310 (env : Env) (current_time : Nat) :
    Except String Unit × List Event :=
  _handle_sensor env SensorType.DPS310 (DPS310Data.get_data env, [])
    current_time

/-- handle_bno08x, source lines 522-530. -/
def handle_bno08x (env : Env) (current_time : Nat) :
    Except String Unit × List Event :=
  _handle_sensor env SensorType.BNO08X (Bno08xData.get_data env)
    current_time

/-! ## handle_sd (source lines 483-506) -/

/-- os.remove on the modelled filesystem: removing a missing path raises
FileNotFoundError, removing a present path deletes it. -/
def os_remove (files : String → Bool) (path : String) :
    Except String (String → Bool) :=
  if files path then .ok (fun q => if q = path then false else files q)
  else .error "FileNotFoundError"

/-- The delete_files list of handle_sd, source lines 488-492. -/
def delete_files : List String := [LOGPATH, ERRPATH, DATAPATH]

/-- The for-loop of handle_sd (source lines 499-504): per path, a Debug log
(no file effect) and an os.remove attempt; FileNotFoundError is caught and
turned into a Warn log, any present file is removed, and the loop
continues. The Warn log call itself appends to the run log with
create-on-append, so it recreates the run log mid-deletion (ok is the
log_open_ok of the tick). -/
def delete_loop :
    List String → (String → Bool) → Bool → (String → Bool) × List Event
  | [], files, _ => (files, [])
  | path :: rest, files, ok =>
    let evs := logE LogLevel.DEBUG ("Removing file " ++ path ++ ".")
      ++ [Event.removeAttempt path]
    match os_remove files path with
    | .ok files2 =>
      let r := delete_loop rest files2 ok
      (r.1, evs ++ r.2)
    | .error _ =>
      let r := delete_loop rest (log_touch files ok LogLevel.WARN) ok
      (r.1, evs
        ++ logE LogLevel.WARN ("File " ++ path ++ " does not exist.")
        ++ r.2)

/-- handle_sd, source lines 483-506: logs an Error when the card-detect pin
is low, and runs the bulk deletion whenever the delete pin reads high (no
edge detection; the pin level alone is tested each call). Returns the
filesystem after the call and the event trace. Every non-Debug log call
inside is paired with its log_touch create-on-append effect: in
particular the announcing Info log recreates the run log before the
delete loop runs, and the completing Info log recreates it afterwards. -/
def handle_sd (env : Env) : (String → Bool) × List Event :=
  let cdEvs :=
    if env.card_present then []
    else logE LogLevel.ERROR "No MicroSD card inserted."
  let files0 :=
    if env.card_present then env.files
    else log_touch env.files env.log_open_ok LogLevel.ERROR
  if env.del_pressed then
    let files1 := log_touch files0 env.log_open_ok LogLevel.INFO
    let r := delete_loop delete_files files1 env.log_open_ok
    (log_touch r.1 env.log_open_ok LogLevel.INFO,
     cdEvs
       ++ logE LogLevel.INFO "MICROSD_DEL pressed. Deleting all files."
       ++ r.2
       ++ logE LogLevel.INFO "File deletion completed.")
  else (files0, cdEvs)

/-- The filesystem seen by the delete loop inside handle_sd: the state
after the card-detect Error log (if any) and the announcing Info log. -/
def handle_sd_files1 (env : Env) : String → Bool :=
  log_touch
    (if env.card_present then env.files
     else log_touch env.files env.log_open_ok LogLevel.ERROR)
    env.log_open_ok LogLevel.INFO

/-! ## The runtime loop (source lines 711-748) -/

/-- loop, source lines 711-724: handle_sd, then the DPS310, then the
BNO08x; an exception from a sensor handler propagates and skips the rest
of the tick body. -/
def loop (env : Env) (current_time : Nat) :
    Except String Unit × List Event :=
  let sd := handle_sd env
  match handle_dps310 env current_time with
  | (.error e, evs) => (.error e, sd.2 ++ evs)
  | (.ok _, evs) =>
    let b := handle_bno08x env current_time
    (b.1, sd.2 ++ evs ++ b.2)

/-- The body of one iteration of the while-True loop in main (source lines
743-745): server.poll() then loop(); a poll exception propagates before
loop runs. -/
def tickBody (env : Env) (current_time : Nat) :
    Except String Unit × List Event :=
  match env.poll_fault with
  | some e => (.error e, [])
  | none => loop env current_time

/-- One full iteration of the while-True loop in main (source lines
741-748): the tick body under the broad except that logs an Error and
falls through to the next iteration. -/
def mainTick (env : Env) (current_time : Nat) : List Event :=
  match tickBody env current_time with
  | (.ok _, evs) => evs
  | (.error e, evs) =>
    evs ++ logE LogLevel.ERROR
      ("Unexpected Error occured in main function: " ++ e)

/-- The steady-state while-True loop of main, run over a finite schedule of
tick environments. -/
def mainRun (ticks : List (Env × Nat)) : List (List Event) :=
  ticks.map fun p => mainTick p.1 p.2

/-- Recognizer for an Error-level log call in a trace. -/
def isErrorLog : Event → Bool
  | Event.logged l _ => l == LogLevel.ERROR
  | _ => false

/-! ## Concrete tick environments used to instantiate the theorems -/

/-- A nominal tick: card inserted, both drivers healthy, no deletion
request, all file operations succeed. -/
def envNominal : Env :=
  { card_present := true, del_pressed := false, files := fun _ => true,
    data_open_ok := true, log_open_ok := true, poll_fault := none,
    dps_fault := none, dps_pressure := "1013.25", dps_temp := "21.5",
    bno_fault := none, bno_accel := some ("0.1", "0.2", "9.8") }

/-- A tick in which server.poll raises. -/
def envPollFault : Env :=
  { envNominal with poll_fault := some "socket error" }

/-- A tick in which the DPS310 property read raises. -/
def envDpsDriverFault : Env :=
  { envNominal with dps_fault := some "I2C transaction failed" }

/-- A tick in which the BNO08x acceleration property returns a falsy
value (the driver returns None when no report is ready). -/
def envBnoFalsy : Env :=
  { envNominal with bno_accel := none }

/-- A tick with the card-detect pin low: the data-file open fails as well,
since the filesystem is gone. -/
def envCardAbsent : Env :=
  { card_present := false, del_pressed := false, files := fun _ => false,
    data_open_ok := false, log_open_ok := false, poll_fault := none,
    dps_fault := none, dps_pressure := "1000.0", dps_temp := "20.0",
    bno_fault := none, bno_accel := some ("0.1", "0.2", "9.8") }

/-- A tick in which the card is present but the append-mode open of the
data file raises. -/
def envOpenFail : Env :=
  { envNominal with data_open_ok := false }

/-- A tick with the delete pin held high while none of the three files
exist. -/
def envDelHeld : Env :=
  { card_present := true, del_pressed := true, files := fun _ => false,
    data_open_ok := true, log_open_ok := true, poll_fault := none,
    dps_fault := none, dps_pressure := "1000.0", dps_temp := "20.0",
    bno_fault := none, bno_accel := some ("0.0", "0.0", "9.81") }

/-! ## Helper lemmas -/

/-- to_influx_line always returns some, and the string is influx_render. -/
theorem to_influx_line_eq (sd : SensorData) :
    sd.to_influx_line
      = some (influx_render sd.sensor_type sd.data sd.timestamp) := rfl

/-- The rendered line is never the empty string: it contains at least the
two separator spaces. -/
theorem influx_render_ne_empty (sensor_type t : Nat)
    (fd : List (String × String)) : influx_render sensor_type fd t ≠ "" := by
  intro h
  have h2 : 0 < (influx_render sensor_type fd t).length := by
    unfold influx_render
    simp [String.length_append]
    left; right
    decide
  rw [h] at h2
  simp at h2

/-- When server.poll does not raise, the trace of the tick starts with the
handle_sd trace: handle_sd is the first statement of loop and never
raises. -/
theorem mainTick_handle_sd_prefix (env : Env) (t : Nat)
    (h : env.poll_fault = none) :
    ∃ rest, mainTick env t = (handle_sd env).2 ++ rest := by
  unfold mainTick tickBody loop
  rw [h]
  rcases hd : handle_dps310 env t with ⟨r, evs⟩
  cases r with
  | error e =>
    exact ⟨evs ++ logE LogLevel.ERROR
      ("Unexpected Error occured in main function: " ++ e), by simp⟩
  | ok u =>
    rcases hb : handle_bno08x env t with ⟨rb, evsb⟩
    cases rb with
    | error e =>
      exact ⟨evs ++ evsb ++ logE LogLevel.ERROR
        ("Unexpected Error occured in main function: " ++ e), by simp⟩
    | ok u2 => exact ⟨evs ++ evsb, by simp⟩

/-- With the card-detect pin low, the handle_sd trace contains the Error
log call and its attempted append to the error-log file. -/
theorem handle_sd_absent_mem (env : Env) (h : env.card_present = false) :
    Event.logged LogLevel.ERROR "No MicroSD card inserted." ∈ (handle_sd env).2
    ∧ Event.logFileWrite ERRPATH ∈ (handle_sd env).2 := by
  unfold handle_sd
  rw [h]
  cases hdel : env.del_pressed <;>
    simp [logE, LogLevel.ERROR, LogLevel.DEBUG]

/-- With a healthy DPS310 and a working data-file open, the tick trace
contains the append of the encoded DPS310 line. -/
theorem mainTick_dps_write (env : Env) (t : Nat)
    (h1 : env.poll_fault = none) (h2 : env.dps_fault = none)
    (h3 : env.data_open_ok = true) :
    Event.fwrite DATAPATH
      (influx_render SensorType.DPS310
        [("pressure", env.dps_pressure), ("temp", env.dps_temp)] t ++ "\r\n")
      ∈ mainTick env t := by
  have hd : handle_dps310 env t
      = (.ok (),
         logE LogLevel.DEBUG
            ("Appending "
              ++ influx_render SensorType.DPS310
                  [("pressure", env.dps_pressure), ("temp", env.dps_temp)] t
              ++ " to " ++ DATAPATH)
           ++ [Event.fwrite DATAPATH
                (influx_render SensorType.DPS310
                  [("pressure", env.dps_pressure), ("temp", env.dps_temp)] t
                  ++ "\r\n")]) := by
    unfold handle_dps310 _handle_sensor data2datafile DPS310Data.get_data
    rw [h2]
    simp [to_influx_line_eq, influx_render_ne_empty, h3]
  unfold mainTick tickBody loop
  rw [h1, hd]
  rcases hb : handle_bno08x env t with ⟨rb, evsb⟩
  cases rb <;> simp

/-- Every path given to the delete loop gets a removal attempt. -/
theorem delete_loop_remove_mem (paths : List String) (files : String → Bool)
    (ok : Bool) (p : String) (hp : p ∈ paths) :
    Event.removeAttempt p ∈ (delete_loop paths files ok).2 := by
  induction paths generalizing files with
  | nil => cases hp
  | cons q rest ih =>
    unfold delete_loop
    rcases List.mem_cons.mp hp with h | h
    · subst h
      cases hq : files p <;>
        simp [os_remove, hq, logE, LogLevel.DEBUG, LogLevel.WARN]
    · cases hq : files q
      · simp [os_remove, hq, logE, LogLevel.DEBUG, LogLevel.WARN]
        exact Or.inr (ih _ h)
      · simp [os_remove, hq, logE, LogLevel.DEBUG, LogLevel.WARN]
        exact Or.inr (ih _ h)

/-- No Error-level log call happens inside the delete loop. -/
theorem delete_loop_no_error (paths : List String) (files : String → Bool)
    (ok : Bool) :
    (delete_loop paths files ok).2.all (fun ev => !isErrorLog ev) = true := by
  induction paths generalizing files with
  | nil => rfl
  | cons q rest ih =>
    unfold delete_loop
    cases hq : files q
    · simp [os_remove, hq, logE, LogLevel.DEBUG, LogLevel.WARN, isErrorLog,
        LogLevel.ERROR]
      intro x hx
      have h2 := ih (log_touch files ok LogLevel.WARN)
      simp [isErrorLog, LogLevel.ERROR] at h2
      exact h2 x hx
    · simp [os_remove, hq, logE, LogLevel.DEBUG, LogLevel.WARN, isErrorLog,
        LogLevel.ERROR]
      intro x hx
      have h2 := ih (fun q2 => !decide (q2 = q) && files q2)
      simp [isErrorLog, LogLevel.ERROR] at h2
      exact h2 x hx

/-- handle_sd with the delete pin held: the shape of the result. -/
theorem handle_sd_del_eq (env : Env) (h : env.del_pressed = true) :
    handle_sd env
      = (log_touch
           (delete_loop delete_files (handle_sd_files1 env) env.log_open_ok).1
           env.log_open_ok LogLevel.INFO,
         (if env.card_present then []
          else logE LogLevel.ERROR "No MicroSD card inserted.")
           ++ logE LogLevel.INFO "MICROSD_DEL pressed. Deleting all files."
           ++ (delete_loop delete_files (handle_sd_files1 env)
               env.log_open_ok).2
           ++ logE LogLevel.INFO "File deletion completed.") := by
  unfold handle_sd handle_sd_files1
  rw [h]
  simp

/-- With the delete pin held, handle_sd announces the deletion and
attempts the removal of all three files. -/
theorem handle_sd_del_mem (env : Env) (h : env.del_pressed = true) :
    Event.logged LogLevel.INFO "MICROSD_DEL pressed. Deleting all files."
      ∈ (handle_sd env).2
    ∧ Event.removeAttempt LOGPATH ∈ (handle_sd env).2
    ∧ Event.removeAttempt ERRPATH ∈ (handle_sd env).2
    ∧ Event.removeAttempt DATAPATH ∈ (handle_sd env).2 := by
  rw [handle_sd_del_eq env h]
  have hrm : ∀ p, p ∈ delete_files →
      Event.removeAttempt p
        ∈ ((if env.card_present then []
            else logE LogLevel.ERROR "No MicroSD card inserted.")
            ++ logE LogLevel.INFO "MICROSD_DEL pressed. Deleting all files."
            ++ (delete_loop delete_files (handle_sd_files1 env)
                env.log_open_ok).2
            ++ logE LogLevel.INFO "File deletion completed.") := by
    intro p hp
    exact List.mem_append_left _
      (List.mem_append_right _ (delete_loop_remove_mem _ _ _ _ hp))
  refine ⟨?_, hrm LOGPATH (by simp [delete_files]),
    hrm ERRPATH (by simp [delete_files]),
    hrm DATAPATH (by simp [delete_files])⟩
  exact List.mem_append_left _
    (List.mem_append_left _
      (List.mem_append_right _ (by simp [logE, LogLevel.INFO, LogLevel.DEBUG])))

/-! ## Claim theorems -/

/-- C1: every tick of the steady-state while-True loop runs to completion:
the schedule of ticks is processed in full whatever faults are injected,
and whenever the tick body (server.poll, sensor read, encode, append)
raises, the exception is caught at the tick boundary and an Error-level
log call is appended to the trace of that same tick, so no single in-tick
fault terminates the process. -/
theorem C1_tick_fault_isolation (ticks : List (Env × Nat)) :
    (mainRun ticks).length = ticks.length
    ∧ (∀ p ∈ ticks, mainTick p.1 p.2 ∈ mainRun ticks)
    ∧ (∀ env t e evs, tickBody env t = (Except.error e, evs) →
        mainTick env t
          = evs ++ logE LogLevel.ERROR
              ("Unexpected Error occured in main function: " ++ e)) := by
  refine ⟨by simp [mainRun], ?_, ?_⟩
  · intro p hp
    exact List.mem_map.mpr ⟨p, hp, rfl⟩
  · intro env t e evs he
    simp [mainTick, he]

/-- C1 witness: a tick whose server.poll raises still completes and ends
with the Error-level log of the caught exception. -/
theorem C1_tick_fault_isolation_witness :
    mainTick envPollFault 0
      = [] ++ logE LogLevel.ERROR
          ("Unexpected Error occured in main function: " ++ "socket error") :=
  (C1_tick_fault_isolation [(envPollFault, 0)]).2.2 envPollFault 0
    "socket error" [] rfl

/-- C2 counterexample: a DPS310 driver fault makes get_data raise past the
sensor-abstraction boundary (the error comes out of get_data and even out
of the sensor handler), instead of returning the documented fallback
mapping. This refutes the claim that for every sensor variant get_data
never raises past the boundary. -/
theorem C2_dps310_raises_counterexample :
    envDpsDriverFault.dps_fault = some "I2C transaction failed"
    ∧ DPS310Data.get_data envDpsDriverFault = .error "I2C transaction failed"
    ∧ (handle_dps310 envDpsDriverFault 0).1 = .error "I2C transaction failed" :=
  ⟨rfl, rfl, rfl⟩

/-- C2 amended: only the BNO08x handles one fault mode inside get_data: a
falsy acceleration value yields the zero fallback mapping plus an Error
log. A raised driver exception propagates out of get_data for both
sensors, and the DPS310 get_data has no fallback at all: with a healthy
driver it returns the two read values, and on a driver fault it raises. -/
theorem C2_sensor_fallback_amended (env : Env) :
    (env.bno_fault = none → env.bno_accel = none →
      Bno08xData.get_data env
        = (.ok [("accel_x", "0"), ("accel_y", "0"), ("accel_z", "0")],
           logE LogLevel.ERROR "Could not get acceleration data from bno08x."))
    ∧ (∀ e, env.bno_fault = some e → Bno08xData.get_data env = (.error e, []))
    ∧ (env.dps_fault = none →
        DPS310Data.get_data env
          = .ok [("pressure", env.dps_pressure), ("temp", env.dps_temp)])
    ∧ (∀ e, env.dps_fault = some e → DPS310Data.get_data env = .error e) := by
  refine ⟨?_, ?_, ?_, ?_⟩
  · intro h1 h2
    simp [Bno08xData.get_data, h1, h2]
  · intro e h1
    simp [Bno08xData.get_data, h1]
  · intro h1
    simp [DPS310Data.get_data, h1]
  · intro e h1
    simp [DPS310Data.get_data, h1]

/-- C2 witness: the falsy-acceleration fallback of the BNO08x and the
raising DPS310, at concrete environments. -/
theorem C2_sensor_fallback_amended_witness :
    Bno08xData.get_data envBnoFalsy
      = (.ok [("accel_x", "0"), ("accel_y", "0"), ("accel_z", "0")],
         logE LogLevel.ERROR "Could not get acceleration data from bno08x.")
    ∧ DPS310Data.get_data envDpsDriverFault = .error "I2C transaction failed" :=
  ⟨(C2_sensor_fallback_amended envBnoFalsy).1 rfl rfl,
   (C2_sensor_fallback_amended envDpsDriverFault).2.2.2
     "I2C transaction failed" rfl⟩

/-- C3 counterexample: with the card-presence signal deasserted, the tick
still attempts a file write (the absent-card Error log itself attempts an
append to the error-log file) and logs two Error lines, not exactly one
(the second comes from the data-file open failure caught at the tick
boundary). This refutes the claim that such a tick performs zero writes
and logs exactly one Error line. -/
theorem C3_absent_card_writes_counterexample :
    envCardAbsent.card_present = false
    ∧ Event.logFileWrite ERRPATH ∈ mainTick envCardAbsent 0
    ∧ (mainTick envCardAbsent 0).countP isErrorLog = 2 := by
  refine ⟨rfl, ?_, ?_⟩ <;> decide

/-- C3 amended: when the card-presence signal is deasserted during a tick,
handle_sd logs an Error line reporting the absent card, but writes are
still attempted: that Error log itself attempts an append to the
error-log file, and the sensor path still attempts the data-file append.
Once presence is reasserted and opens succeed again, the data-file append
proceeds normally in the same process. -/
theorem C3_absent_card_amended (env env2 : Env) (t t2 : Nat)
    (h1 : env.card_present = false) (h2 : env.poll_fault = none)
    (h3 : env2.poll_fault = none) (h4 : env2.dps_fault = none)
    (h5 : env2.data_open_ok = true) :
    Event.logged LogLevel.ERROR "No MicroSD card inserted." ∈ mainTick env t
    ∧ Event.logFileWrite ERRPATH ∈ mainTick env t
    ∧ Event.fwrite DATAPATH
        (influx_render SensorType.DPS310
          [("pressure", env2.dps_pressure), ("temp", env2.dps_temp)] t2
          ++ "\r\n") ∈ mainTick env2 t2 := by
  obtain ⟨rest, hr⟩ := mainTick_handle_sd_prefix env t h2
  obtain ⟨hm1, hm2⟩ := handle_sd_absent_mem env h1
  rw [hr]
  exact ⟨List.mem_append_left _ hm1, List.mem_append_left _ hm2,
    mainTick_dps_write env2 t2 h3 h4 h5⟩

/-- C3 witness: the absent-card tick and a later nominal tick, at concrete
environments. -/
theorem C3_absent_card_amended_witness :
    Event.logged LogLevel.ERROR "No MicroSD card inserted."
      ∈ mainTick envCardAbsent 0
    ∧ Event.logFileWrite ERRPATH ∈ mainTick envCardAbsent 0
    ∧ Event.fwrite DATAPATH
        (influx_render SensorType.DPS310
          [("pressure", envNominal.dps_pressure),
           ("temp", envNominal.dps_temp)] 7
          ++ "\r\n") ∈ mainTick envNominal 7 :=
  C3_absent_card_amended envCardAbsent envNominal 0 7 rfl rfl rfl rfl rfl

/-- C4 counterexample: a failing append-mode open of the data file raises
out of data2datafile with no Warn or Error log emitted inside the append
path, and the error reaches the sensor handler (the caller of the caller
of the append). This refutes the claim that append failures are caught
inside the storage-append path and never propagate. -/
theorem C4_append_uncaught_counterexample :
    (data2datafile envOpenFail SensorType.DPS310
        (DPS310Data.get_data envOpenFail, []) 0).1 = .error "OSError"
    ∧ (data2datafile envOpenFail SensorType.DPS310
        (DPS310Data.get_data envOpenFail, []) 0).2 = []
    ∧ (_handle_sensor envOpenFail SensorType.DPS310
        (DPS310Data.get_data envOpenFail, []) 0).1 = .error "OSError"
    ∧ (handle_dps310 envOpenFail 0).1 = .error "OSError" :=
  ⟨rfl, rfl, rfl, rfl⟩

/-- C4 amended: a failure of the data-file append raises out of
data2datafile, propagates through the sensor handler, and is caught only
at the tick boundary in main, where it is logged at Error level. -/
theorem C4_append_propagation_amended (env : Env) (t : Nat)
    (h1 : env.poll_fault = none) (h2 : env.dps_fault = none)
    (h3 : env.data_open_ok = false) :
    (data2datafile env SensorType.DPS310 (DPS310Data.get_data env, []) t).1
      = .error "OSError"
    ∧ (handle_dps310 env t).1 = .error "OSError"
    ∧ Event.logged LogLevel.ERROR
        ("Unexpected Error occured in main function: " ++ "OSError")
        ∈ mainTick env t := by
  have hd : handle_dps310 env t = (.error "OSError", []) := by
    unfold handle_dps310 _handle_sensor data2datafile DPS310Data.get_data
    rw [h2]
    simp [to_influx_line_eq, influx_render_ne_empty, h3]
  refine ⟨?_, by rw [hd], ?_⟩
  · unfold data2datafile DPS310Data.get_data
    rw [h2]
    simp [to_influx_line_eq, influx_render_ne_empty, h3]
  · unfold mainTick tickBody loop
    rw [h1, hd]
    simp [logE]

/-- C4 witness: the failing-open tick at a concrete environment. -/
theorem C4_append_propagation_amended_witness :
    (data2datafile envOpenFail SensorType.DPS310
        (DPS310Data.get_data envOpenFail, []) 9).1 = .error "OSError"
    ∧ (handle_dps310 envOpenFail 9).1 = .error "OSError"
    ∧ Event.logged LogLevel.ERROR
        ("Unexpected Error occured in main function: " ++ "OSError")
        ∈ mainTick envOpenFail 9 :=
  C4_append_propagation_amended envOpenFail 9 rfl rfl rfl

/-- C5: a DPS310 reading with fields pressure=1013.25 and temp=21.5 and
timestamp 120000 encodes to exactly the string
dps310 pressure=1013.25,temp=21.5 120000 : the measurement name comes
from the fixed enum-to-string table, the fields are joined by commas with
no spaces, the timestamp trails, and there is no trailing newline. -/
theorem C5_dps310_encoding :
    (SensorData.mk SensorType.DPS310
      [("pressure", "1013.25"), ("temp", "21.5")] 120000).to_influx_line
      = some "dps310 pressure=1013.25,temp=21.5 120000"
    ∧ SensorType.get_name SensorType.DPS310 = "dps310" := ⟨rfl, rfl⟩

/-- C6: for every log call with a non-empty message the rendered line is
[LEVEL] - [timestamp]: text, a Debug call performs no file write, an Info
or Warn call is routed to the run-log file, and an Error call to the
error-log file. -/
theorem C6_log_format_routing (level : Nat) (message : List String) (ts : Nat)
    (h : message ≠ []) :
    (log level message ts).1
      = "[" ++ LogLevel.get_name level ++ "] - [" ++ toString ts ++ "]: "
        ++ String.join message
    ∧ (log LogLevel.DEBUG message ts).2 = none
    ∧ (log LogLevel.INFO message ts).2 = some LOGPATH
    ∧ (log LogLevel.WARN message ts).2 = some LOGPATH
    ∧ (log LogLevel.ERROR message ts).2 = some ERRPATH := by
  have hm : message.isEmpty = false := by
    cases message
    · exact absurd rfl h
    · rfl
  have h1 : (log level message ts).1
      = "[" ++ LogLevel.get_name level ++ "] - [" ++ toString ts ++ "]: "
        ++ String.join message := by
    unfold log
    simp [hm]
    split <;> rfl
  refine ⟨h1, ?_, ?_, ?_, ?_⟩ <;>
    simp [log, hm, LogLevel.DEBUG, LogLevel.INFO, LogLevel.WARN,
      LogLevel.ERROR]

/-- C6 witness: a concrete Warn-level call. -/
theorem C6_log_format_routing_witness :
    (log 2 ["Card is connected."] 987).1
      = "[" ++ LogLevel.get_name 2 ++ "] - [" ++ toString 987 ++ "]: "
        ++ String.join ["Card is connected."]
    ∧ (log LogLevel.DEBUG ["Card is connected."] 987).2 = none
    ∧ (log LogLevel.INFO ["Card is connected."] 987).2 = some LOGPATH
    ∧ (log LogLevel.WARN ["Card is connected."] 987).2 = some LOGPATH
    ∧ (log LogLevel.ERROR ["Card is connected."] 987).2 = some ERRPATH :=
  C6_log_format_routing 2 ["Card is connected."] 987 (List.cons_ne_nil _ _)

/-- C7: encoding a SensorData with an empty field mapping still succeeds
and yields measurement name, two consecutive spaces for the empty field
segment, then the timestamp, byte for byte. -/
theorem C7_empty_fields_encoding (sensor_type ts : Nat) :
    (SensorData.mk sensor_type [] ts).to_influx_line
      = some (SensorType.get_name sensor_type ++ "  " ++ toString ts) := by
  rw [to_influx_line_eq]
  congr 1
  unfold influx_render
  apply String.ext
  simp [String.intercalate, String.data_append]

/-- C8 counterexample: with the delete signal asserted and all three files
absent, the announcing Info log recreates the run log via create-on-append
before the removal loop, so the absent run log is removed without any
not-found notice, and the Warn and completion log calls recreate it again:
no per-file not-found Warn for the run log is ever emitted and the run log
exists after the call. This refutes the claim that each already-absent
file is handled by logging a per-file not-found notice. -/
theorem C8_runlog_recreated_counterexample :
    envDelHeld.del_pressed = true
    ∧ envDelHeld.files LOGPATH = false
    ∧ Event.logged LogLevel.WARN ("File " ++ LOGPATH ++ " does not exist.")
        ∉ (handle_sd envDelHeld).2
    ∧ (handle_sd envDelHeld).1 LOGPATH = true := by
  refine ⟨rfl, rfl, ?_, ?_⟩ <;> decide

/-- C8 amended: handle_sd with the delete signal asserted never raises
(each FileNotFoundError of os.remove is caught), the removal of all three
files is attempted, and with the card present no Error is logged; an
absent error log or data file still gets its per-file Warn (non-Error)
not-found notice and is gone afterwards. But the run log is recreated by
the announcing Info log before its removal attempt, so an absent run log
is deleted without a notice, and the completing Info log recreates it
again, so the run log exists after the call (assuming working log
appends). -/
theorem C8_delete_all_amended (env : Env) (h1 : env.del_pressed = true)
    (h2 : env.log_open_ok = true) (h3 : env.card_present = true) :
    (env.files ERRPATH = false →
      Event.logged LogLevel.WARN ("File " ++ ERRPATH ++ " does not exist.")
        ∈ (handle_sd env).2)
    ∧ (env.files DATAPATH = false →
      Event.logged LogLevel.WARN ("File " ++ DATAPATH ++ " does not exist.")
        ∈ (handle_sd env).2)
    ∧ Event.removeAttempt LOGPATH ∈ (handle_sd env).2
    ∧ Event.removeAttempt ERRPATH ∈ (handle_sd env).2
    ∧ Event.removeAttempt DATAPATH ∈ (handle_sd env).2
    ∧ (handle_sd env).1 ERRPATH = false
    ∧ (handle_sd env).1 DATAPATH = false
    ∧ (handle_sd env).1 LOGPATH = true
    ∧ Event.logged LogLevel.WARN ("File " ++ LOGPATH ++ " does not exist.")
        ∉ (handle_sd env).2
    ∧ (handle_sd env).2.all (fun ev => !isErrorLog ev) = true := by
  obtain ⟨hinfo, hrL, hrE, hrD⟩ := handle_sd_del_mem env h1
  have neEL : ¬(ERRPATH = LOGPATH) := by decide
  have neDL : ¬(DATAPATH = LOGPATH) := by decide
  have neDE : ¬(DATAPATH = ERRPATH) := by decide
  have neLE : ¬(LOGPATH = ERRPATH) := by decide
  have neLD : ¬(LOGPATH = DATAPATH) := by decide
  have neED : ¬(ERRPATH = DATAPATH) := by decide
  have nmsgE : ¬(("File " ++ LOGPATH ++ " does not exist.")
      = ("File " ++ ERRPATH ++ " does not exist.")) := by decide
  have nmsgD : ¬(("File " ++ LOGPATH ++ " does not exist.")
      = ("File " ++ DATAPATH ++ " does not exist.")) := by decide
  refine ⟨?_, ?_, hrL, hrE, hrD, ?_, ?_, ?_, ?_, ?_⟩ <;>
    rw [handle_sd_del_eq env h1] <;>
    cases hE : env.files ERRPATH <;>
    cases hD : env.files DATAPATH <;>
    simp [handle_sd_files1, h2, h3, hE, hD, log_touch, delete_loop,
      os_remove, delete_files, logE, isErrorLog, LogLevel.DEBUG,
      LogLevel.INFO, LogLevel.WARN, LogLevel.ERROR, neEL, neDL, neDE, neLE,
      neLD, neED, nmsgE, nmsgD]

/-- C8 witness: deletion requested while all three files are absent, at a
concrete environment. -/
theorem C8_delete_all_amended_witness :
    Event.logged LogLevel.WARN ("File " ++ ERRPATH ++ " does not exist.")
      ∈ (handle_sd envDelHeld).2
    ∧ Event.logged LogLevel.WARN ("File " ++ DATAPATH ++ " does not exist.")
      ∈ (handle_sd envDelHeld).2
    ∧ Event.removeAttempt LOGPATH ∈ (handle_sd envDelHeld).2
    ∧ (handle_sd envDelHeld).1 ERRPATH = false
    ∧ (handle_sd envDelHeld).1 DATAPATH = false
    ∧ (handle_sd envDelHeld).1 LOGPATH = true
    ∧ Event.logged LogLevel.WARN ("File " ++ LOGPATH ++ " does not exist.")
        ∉ (handle_sd envDelHeld).2
    ∧ (handle_sd envDelHeld).2.all (fun ev => !isErrorLog ev) = true :=
  ⟨(C8_delete_all_amended envDelHeld rfl rfl rfl).1 rfl,
   (C8_delete_all_amended envDelHeld rfl rfl rfl).2.1 rfl,
   (C8_delete_all_amended envDelHeld rfl rfl rfl).2.2.1,
   (C8_delete_all_amended envDelHeld rfl rfl rfl).2.2.2.2.2.1,
   (C8_delete_all_amended envDelHeld rfl rfl rfl).2.2.2.2.2.2.1,
   (C8_delete_all_amended envDelHeld rfl rfl rfl).2.2.2.2.2.2.2.1,
   (C8_delete_all_amended envDelHeld rfl rfl rfl).2.2.2.2.2.2.2.2.1,
   (C8_delete_all_amended envDelHeld rfl rfl rfl).2.2.2.2.2.2.2.2.2⟩

/-- C9 counterexample: two consecutive ticks with the delete signal held
continuously asserted each announce and re-attempt the bulk deletion, so
the deletion is re-triggered on every tick rather than processed at most
once per assertion edge. -/
theorem C9_retrigger_counterexample :
    (mainRun [(envDelHeld, 0), (envDelHeld, 1)]).length = 2
    ∧ (mainRun [(envDelHeld, 0), (envDelHeld, 1)]).all
        (fun evs =>
          decide (Event.logged LogLevel.INFO
              "MICROSD_DEL pressed. Deleting all files." ∈ evs)
          && decide (Event.removeAttempt DATAPATH ∈ evs)) = true := by
  refine ⟨rfl, ?_⟩
  decide

/-- C9 amended: the code has no edge detection: on every tick whose delete
pin reads asserted (and whose poll does not raise), handle_sd announces
the deletion and attempts the removal of all three files again. -/
theorem C9_retrigger_amended (env : Env) (t : Nat)
    (h1 : env.del_pressed = true) (h2 : env.poll_fault = none) :
    Event.logged LogLevel.INFO "MICROSD_DEL pressed. Deleting all files."
      ∈ mainTick env t
    ∧ Event.removeAttempt LOGPATH ∈ mainTick env t
    ∧ Event.removeAttempt ERRPATH ∈ mainTick env t
    ∧ Event.removeAttempt DATAPATH ∈ mainTick env t := by
  obtain ⟨rest, hr⟩ := mainTick_handle_sd_prefix env t h2
  obtain ⟨m1, m2, m3, m4⟩ := handle_sd_del_mem env h1
  rw [hr]
  exact ⟨List.mem_append_left _ m1, List.mem_append_left _ m2,
    List.mem_append_left _ m3, List.mem_append_left _ m4⟩

/-- C9 witness: a concrete held-signal tick. -/
theorem C9_retrigger_amended_witness :
    Event.logged LogLevel.INFO "MICROSD_DEL pressed. Deleting all files."
      ∈ mainTick envDelHeld 3
    ∧ Event.removeAttempt LOGPATH ∈ mainTick envDelHeld 3
    ∧ Event.removeAttempt ERRPATH ∈ mainTick envDelHeld 3
    ∧ Event.removeAttempt DATAPATH ∈ mainTick envDelHeld 3 :=
  C9_retrigger_amended envDelHeld 3 rfl rfl

/-- C10: to_influx_line always returns a non-empty string even though its
annotation allows None, so the truthiness guard in data2datafile never
suppresses a write: with a working open, every call performs exactly one
append of the encoded line terminated by CRLF (preceded only by the Debug
log call, which writes no file). -/
theorem C10_guard_never_suppresses (env : Env) (sensor_type t : Nat)
    (fd : List (String × String)) (h : env.data_open_ok = true) :
    (SensorData.mk sensor_type fd t).to_influx_line
      = some (influx_render sensor_type fd t)
    ∧ influx_render sensor_type fd t ≠ ""
    ∧ data2datafile env sensor_type (.ok fd, []) t
      = (.ok (),
         logE LogLevel.DEBUG
            ("Appending " ++ influx_render sensor_type fd t ++ " to "
              ++ DATAPATH)
           ++ [Event.fwrite DATAPATH
                (influx_render sensor_type fd t ++ "\r\n")]) := by
  refine ⟨to_influx_line_eq _, influx_render_ne_empty _ _ _, ?_⟩
  unfold data2datafile
  simp [to_influx_line_eq, influx_render_ne_empty, h]

/-- C10 witness: the DPS310 example reading at a concrete environment. -/
theorem C10_guard_never_suppresses_witness :
    (SensorData.mk SensorType.DPS310
      [("pressure", "1013.25"), ("temp", "21.5")] 120000).to_influx_line
      = some (influx_render SensorType.DPS310
          [("pressure", "1013.25"), ("temp", "21.5")] 120000)
    ∧ influx_render SensorType.DPS310
        [("pressure", "1013.25"), ("temp", "21.5")] 120000 ≠ ""
    ∧ data2datafile envNominal SensorType.DPS310
        (.ok [("pressure", "1013.25"), ("temp", "21.5")], []) 120000
      = (.ok (),
         logE LogLevel.DEBUG
            ("Appending "
              ++ influx_render SensorType.DPS310
                  [("pressure", "1013.25"), ("temp", "21.5")] 120000
              ++ " to " ++ DATAPATH)
           ++ [Event.fwrite DATAPATH
                (influx_render SensorType.DPS310
                  [("pressure", "1013.25"), ("temp", "21.5")] 120000
                  ++ "\r\n")]) :=
  C10_guard_never_suppresses envNominal SensorType.DPS310 120000
    [("pressure", "1013.25"), ("temp", "21.5")] rfl

end METER
